import Mathlib

/-!
Shallow embedding of the initialization logic of `newron/__init__.py`.

The module body does, in order:
1. a `try` block that sequentially imports 22 optional flavor modules
   (`from newron import catboost`, ..., `from mlflow import pyspark`, ...)
   and, only when every one of those 22 imports succeeds, assigns
   `_model_flavors_supported` to a fixed 21-name list (the bound names
   minus `pyspark`); the block is guarded by `except ImportError: pass`,
   so the first `ImportError` abandons the rest of the block and leaves
   `_model_flavors_supported` at its initial value `[]`;
2. a rebinding of 40 public names onto attributes of the `tracking`,
   `models` and `projects` namespaces (an unresolvable attribute raises
   `AttributeError`, which nothing catches);
3. `__all__ = [42 fixed names] + _model_flavors_supported`.

The environment abstracts which optional modules are importable (and with
which failure mode) and which core attributes resolve.
-/

/-- Outcome of trying to load one optional flavor module in the `try` block. -/
inductive Outcome where
  | ok
  | importError
  | otherError
deriving DecidableEq

/-- What stopped the probe block, when something did. -/
inductive ProbeStop where
  | importErr
  | otherErr
deriving DecidableEq

/-- Exceptions that can escape (or be swallowed during) module initialization. -/
inductive PyException where
  | importError
  | otherError
  | attributeError
deriving DecidableEq

/-- One `from <pkg> import <name>` statement of the flavor `try` block:
the full module path that is loaded and the name it binds on success. -/
structure FlavorImport where
  module : String
  name : String
deriving DecidableEq

/-- One `public = namespace.attr` assignment of the rebinding section:
the public name being bound and the attribute expression it reads. -/
structure CoreBinding where
  publicName : String
  source : String
deriving DecidableEq

/-- The abstract process environment: the outcome of loading each optional
flavor module, and whether each core attribute expression resolves. -/
structure Env where
  flavorImport : String → Outcome
  resolves : String → Bool

/-- Result of running the flavor `try` block: which modules were attempted
(in order), which names got bound by successful imports, and what stopped
the block, if anything. -/
structure ProbeResult where
  attempted : List String
  bound : List String
  stopped : Option ProbeStop
deriving DecidableEq

/-- Final state of the `newron` package namespace after a successful run
of the module body. -/
structure ModuleState where
  flavors : List String
  flavorNames : List String
  coreNames : List String
  allExports : List String
deriving DecidableEq

/-- Kind of value an attribute lookup on the package finds. -/
inductive PyAttr where
  | callable
  | moduleAttr
deriving DecidableEq

/-- The 22 sequential imports of the flavor `try` block (lines 52-73 of
`newron/__init__.py`), in source order. -/
def probeImports : List FlavorImport :=
  [ ⟨"newron.catboost", "catboost"⟩
  , ⟨"newron.fastai", "fastai"⟩
  , ⟨"newron.gluon", "gluon"⟩
  , ⟨"newron.h2o", "h2o"⟩
  , ⟨"newron.keras", "keras"⟩
  , ⟨"newron.lightgbm", "lightgbm"⟩
  , ⟨"mlflow.mleap", "mleap"⟩
  , ⟨"newron.onnx", "onnx"⟩
  , ⟨"mlflow.pyfunc", "pyfunc"⟩
  , ⟨"newron.pytorch", "pytorch"⟩
  , ⟨"newron.sklearn", "sklearn"⟩
  , ⟨"newron.spacy", "spacy"⟩
  , ⟨"newron.spark", "spark"⟩
  , ⟨"mlflow.statsmodels", "statsmodels"⟩
  , ⟨"newron.tensorflow", "tensorflow"⟩
  , ⟨"mlflow.xgboost", "xgboost"⟩
  , ⟨"mlflow.shap", "shap"⟩
  , ⟨"mlflow.pyspark", "pyspark"⟩
  , ⟨"mlflow.paddle", "paddle"⟩
  , ⟨"newron.prophet", "prophet"⟩
  , ⟨"newron.pmdarima", "pmdarima"⟩
  , ⟨"newron.diviner", "diviner"⟩
  ]

/-- The literal assigned to `_model_flavors_supported` when the whole
`try` block succeeds (lines 75-97): 21 names, `pyspark` not among them. -/
def modelFlavorsSupportedFull : List String :=
  [ "catboost", "fastai", "gluon", "h2o", "keras", "lightgbm", "mleap"
  , "onnx", "pyfunc", "pytorch", "sklearn", "spacy", "spark", "statsmodels"
  , "tensorflow", "xgboost", "shap", "paddle", "prophet", "pmdarima", "diviner"
  ]

/-- The 40 `public = namespace.attr` assignments of lines 130-170, in
source order. -/
def coreAssignments : List CoreBinding :=
  [ ⟨"get_tracking_uri", "tracking.get_tracking_uri"⟩
  , ⟨"get_registry_uri", "tracking.get_registry_uri"⟩
  , ⟨"create_experiment", "tracking.create_experiment"⟩
  , ⟨"set_experiment", "tracking.set_experiment"⟩
  , ⟨"log_params", "tracking.log_params"⟩
  , ⟨"log_metrics", "tracking.log_metrics"⟩
  , ⟨"set_experiment_tags", "tracking.set_experiment_tags"⟩
  , ⟨"set_experiment_tag", "tracking.set_experiment_tag"⟩
  , ⟨"set_tags", "tracking.set_tags"⟩
  , ⟨"delete_experiment", "tracking.delete_experiment"⟩
  , ⟨"delete_run", "tracking.delete_run"⟩
  , ⟨"register_model", "tracking.register_model"⟩
  , ⟨"autolog", "tracking.autolog"⟩
  , ⟨"evaluate", "models.evaluate"⟩
  , ⟨"last_active_run", "tracking.last_active_run"⟩
  , ⟨"NewronClient", "tracking.NewronClient"⟩
  , ⟨"ActiveRun", "tracking.ActiveRun"⟩
  , ⟨"log_param", "tracking.log_param"⟩
  , ⟨"log_metric", "tracking.log_metric"⟩
  , ⟨"set_tag", "tracking.set_tag"⟩
  , ⟨"delete_tag", "tracking.delete_tag"⟩
  , ⟨"log_artifacts", "tracking.log_artifacts"⟩
  , ⟨"log_artifact", "tracking.log_artifact"⟩
  , ⟨"log_text", "tracking.log_text"⟩
  , ⟨"log_dict", "tracking.log_dict"⟩
  , ⟨"log_image", "tracking.log_image"⟩
  , ⟨"log_figure", "tracking.log_figure"⟩
  , ⟨"active_run", "tracking.active_run"⟩
  , ⟨"get_run", "tracking.get_run"⟩
  , ⟨"start_run", "tracking.start_run"⟩
  , ⟨"end_run", "tracking.end_run"⟩
  , ⟨"search_runs", "tracking.search_runs"⟩
  , ⟨"list_run_infos", "tracking.list_run_infos"⟩
  , ⟨"get_artifact_uri", "tracking.get_artifact_uri"⟩
  , ⟨"set_tracking_uri", "tracking.set_tracking_uri"⟩
  , ⟨"set_registry_uri", "tracking.set_registry_uri"⟩
  , ⟨"get_experiment", "tracking.get_experiment"⟩
  , ⟨"get_experiment_by_name", "tracking.get_experiment_by_name"⟩
  , ⟨"list_experiments", "tracking.list_experiments"⟩
  , ⟨"run", "projects.run"⟩
  ]

/-- The 42 literal entries of `__all__` (lines 173-215), before
`_model_flavors_supported` is appended. -/
def allBase : List String :=
  [ "ActiveRun", "log_param", "log_params", "log_metric", "log_metrics"
  , "set_experiment_tags", "set_experiment_tag", "set_tag", "set_tags"
  , "delete_tag", "log_artifacts", "log_artifact", "log_text", "log_dict"
  , "log_figure", "log_image", "active_run", "start_run", "end_run"
  , "search_runs", "get_artifact_uri", "get_tracking_uri", "set_tracking_uri"
  , "get_experiment", "get_experiment_by_name", "list_experiments"
  , "search_experiments", "create_experiment", "set_experiment"
  , "delete_experiment", "get_run", "delete_run", "run", "register_model"
  , "get_registry_uri", "set_registry_uri", "list_run_infos", "autolog"
  , "evaluate", "last_active_run", "MlflowClient", "NewronClient"
  ]

/-- Run the sequential imports of the `try` block: each import either
succeeds (binding its name and moving on), raises `ImportError`, or raises
some other exception; the first failure stops the block. -/
def runProbesGo (env : String → Outcome) : List FlavorImport → ProbeResult
  | [] => { attempted := [], bound := [], stopped := none }
  | i :: is =>
    match env i.module with
    | Outcome.ok =>
      let r := runProbesGo env is
      { attempted := i.module :: r.attempted
      , bound := i.name :: r.bound
      , stopped := r.stopped }
    | Outcome.importError =>
      { attempted := [i.module], bound := [], stopped := some ProbeStop.importErr }
    | Outcome.otherError =>
      { attempted := [i.module], bound := [], stopped := some ProbeStop.otherErr }

/-- The flavor `try` block run on the fixed probe list. -/
def runProbes (env : Env) : ProbeResult :=
  runProbesGo env.flavorImport probeImports

/-- Run the `public = namespace.attr` assignments in order: the first
attribute that fails to resolve raises `AttributeError`; otherwise every
public name gets bound. -/
def rebindGo (resolves : String → Bool) : List CoreBinding → Except PyException (List String)
  | [] => Except.ok []
  | b :: bs =>
    if resolves b.source then
      match rebindGo resolves bs with
      | Except.ok l => Except.ok (b.publicName :: l)
      | Except.error e => Except.error e
    else
      Except.error PyException.attributeError

/-- The rebinding section (lines 130-170) on the fixed assignment list. -/
def rebindCore (resolves : String → Bool) : Except PyException (List String) :=
  rebindGo resolves coreAssignments

/-- The whole module body of `newron/__init__.py` as a function of the
environment: the flavor `try` block with its `except ImportError: pass`,
then the public-name rebinding, then `__all__ = [...] + _model_flavors_supported`.
A non-`ImportError` escaping the `try` block, or an `AttributeError` from
the rebinding, aborts initialization. -/
def initNewron (env : Env) : Except PyException ModuleState :=
  match (runProbes env).stopped with
  | some ProbeStop.otherErr => Except.error PyException.otherError
  | some ProbeStop.importErr =>
    match rebindCore env.resolves with
    | Except.error e => Except.error e
    | Except.ok core =>
      Except.ok { flavors := []
                , flavorNames := (runProbes env).bound
                , coreNames := core
                , allExports := allBase ++ [] }
  | none =>
    match rebindCore env.resolves with
    | Except.error e => Except.error e
    | Except.ok core =>
      Except.ok { flavors := modelFlavorsSupportedFull
                , flavorNames := (runProbes env).bound
                , coreNames := core
                , allExports := allBase ++ modelFlavorsSupportedFull }

/-- Attribute lookup on the initialized package namespace: the rebound core
names are callables (function and class aliases from `tracking`, `models`,
`projects`); names bound by a flavor import are modules; anything else is
absent. -/
def lookupAttr (st : ModuleState) (n : String) : Option PyAttr :=
  if n ∈ st.coreNames then some PyAttr.callable
  else if n ∈ st.flavorNames then some PyAttr.moduleAttr
  else none

/-- Python's import caching: a second `import newron` in the same process
returns the cached module unchanged; only a first import runs the body. -/
def importPackage (cache : Option ModuleState) (env : Env) : Except PyException ModuleState :=
  match cache with
  | some st => Except.ok st
  | none => initNewron env

/-- Environment in which every optional flavor module loads and every core
attribute resolves. -/
def envFull : Env :=
  { flavorImport := fun _ => Outcome.ok, resolves := fun _ => true }

/-- Environment in which no optional flavor dependency is installed but the
core namespaces are intact. -/
def envNoFlavors : Env :=
  { flavorImport := fun _ => Outcome.importError, resolves := fun _ => true }

/-- Environment in which only the `catboost` flavor dependency is missing. -/
def envCatboostMissing : Env :=
  { flavorImport := fun m => if m = "newron.catboost" then Outcome.importError else Outcome.ok
  , resolves := fun _ => true }

/-- Environment in which only the `pyspark` module is missing. -/
def envPysparkMissing : Env :=
  { flavorImport := fun m => if m = "mlflow.pyspark" then Outcome.importError else Outcome.ok
  , resolves := fun _ => true }

/-- The final namespace state when every import succeeds and every core
attribute resolves. -/
def stFull : ModuleState :=
  { flavors := modelFlavorsSupportedFull
  , flavorNames := probeImports.map FlavorImport.name
  , coreNames := coreAssignments.map CoreBinding.publicName
  , allExports := allBase ++ modelFlavorsSupportedFull }

/-! ### Helper lemmas about the probe block, the rebinding and the body -/

lemma runProbesGo_all_ok (env : String → Outcome) (l : List FlavorImport)
    (h : ∀ i ∈ l, env i.module = Outcome.ok) :
    runProbesGo env l =
      { attempted := l.map FlavorImport.module
      , bound := l.map FlavorImport.name
      , stopped := none } := by
  induction l with
  | nil => rfl
  | cons i is ih =>
    have hi : env i.module = Outcome.ok := h i (List.mem_cons_self i is)
    have ih2 := ih (fun j hj => h j (List.mem_cons_of_mem i hj))
    simp [runProbesGo, hi, ih2]

lemma runProbesGo_stopped_none_iff (env : String → Outcome) (l : List FlavorImport) :
    (runProbesGo env l).stopped = none ↔ ∀ i ∈ l, env i.module = Outcome.ok := by
  induction l with
  | nil => simp [runProbesGo]
  | cons i is ih =>
    cases hi : env i.module with
    | ok =>
      simp only [runProbesGo, hi]
      rw [ih]
      constructor
      · intro h j hj
        rcases List.mem_cons.mp hj with hj | hj
        · rw [hj]; exact hi
        · exact h j hj
      · intro h j hj
        exact h j (List.mem_cons_of_mem i hj)
    | importError =>
      simp only [runProbesGo, hi]
      constructor
      · intro h; cases h
      · intro h
        have := h i (List.mem_cons_self i is)
        rw [hi] at this
        cases this
    | otherError =>
      simp only [runProbesGo, hi]
      constructor
      · intro h; cases h
      · intro h
        have := h i (List.mem_cons_self i is)
        rw [hi] at this
        cases this

lemma runProbes_stopped_none_iff (env : Env) :
    (runProbes env).stopped = none ↔
      ∀ i ∈ probeImports, env.flavorImport i.module = Outcome.ok :=
  runProbesGo_stopped_none_iff env.flavorImport probeImports

lemma runProbesGo_stops_importError (env : String → Outcome)
    (pre : List FlavorImport) (i : FlavorImport) (rest : List FlavorImport)
    (hpre : ∀ j ∈ pre, env j.module = Outcome.ok)
    (hi : env i.module = Outcome.importError) :
    runProbesGo env (pre ++ i :: rest) =
      { attempted := pre.map FlavorImport.module ++ [i.module]
      , bound := pre.map FlavorImport.name
      , stopped := some ProbeStop.importErr } := by
  induction pre with
  | nil => simp [runProbesGo, hi]
  | cons j js ih =>
    have hj : env j.module = Outcome.ok := hpre j (List.mem_cons_self j js)
    have ih2 := ih (fun k hk => hpre k (List.mem_cons_of_mem j hk))
    simp [runProbesGo, hj, ih2]

lemma rebindGo_all_resolve (resolves : String → Bool) (l : List CoreBinding)
    (h : ∀ b ∈ l, resolves b.source = true) :
    rebindGo resolves l = Except.ok (l.map CoreBinding.publicName) := by
  induction l with
  | nil => rfl
  | cons b bs ih =>
    have hb : resolves b.source = true := h b (List.mem_cons_self b bs)
    have ih2 := ih (fun c hc => h c (List.mem_cons_of_mem b hc))
    simp [rebindGo, hb, ih2]

lemma rebindGo_error_attr (resolves : String → Bool) (l : List CoreBinding)
    (e : PyException) (h : rebindGo resolves l = Except.error e) :
    e = PyException.attributeError := by
  induction l with
  | nil => cases h
  | cons b bs ih =>
    by_cases hb : resolves b.source = true
    · cases hre : rebindGo resolves bs with
      | ok l2 => simp [rebindGo, hb, hre] at h
      | error e2 =>
        simp only [rebindGo, hb, if_pos, hre] at h
        cases h
        exact ih hre
    · simp only [rebindGo, if_neg hb] at h
      cases h
      rfl

lemma initNewron_otherErr (env : Env)
    (hs : (runProbes env).stopped = some ProbeStop.otherErr) :
    initNewron env = Except.error PyException.otherError := by
  unfold initNewron
  rw [hs]

lemma initNewron_importErr_ok (env : Env) (core : List String)
    (hs : (runProbes env).stopped = some ProbeStop.importErr)
    (hre : rebindCore env.resolves = Except.ok core) :
    initNewron env =
      Except.ok { flavors := []
                , flavorNames := (runProbes env).bound
                , coreNames := core
                , allExports := allBase ++ [] } := by
  unfold initNewron
  rw [hs, hre]

lemma initNewron_none_ok (env : Env) (core : List String)
    (hs : (runProbes env).stopped = none)
    (hre : rebindCore env.resolves = Except.ok core) :
    initNewron env =
      Except.ok { flavors := modelFlavorsSupportedFull
                , flavorNames := (runProbes env).bound
                , coreNames := core
                , allExports := allBase ++ modelFlavorsSupportedFull } := by
  unfold initNewron
  rw [hs, hre]

lemma initNewron_rebind_err (env : Env) (e : PyException)
    (hs : (runProbes env).stopped ≠ some ProbeStop.otherErr)
    (hre : rebindCore env.resolves = Except.error e) :
    initNewron env = Except.error e := by
  unfold initNewron
  cases hstop : (runProbes env).stopped with
  | none => rw [hre]
  | some s =>
    cases s with
    | importErr => rw [hre]
    | otherErr => exact absurd hstop hs

lemma initNewron_ok_flavors (env : Env) (st : ModuleState)
    (h : initNewron env = Except.ok st) :
    st.flavors =
      if (runProbes env).stopped = none then modelFlavorsSupportedFull else [] := by
  cases hs : (runProbes env).stopped with
  | none =>
    cases hre : rebindCore env.resolves with
    | error e =>
      rw [initNewron_rebind_err env e (by rw [hs]; intro hc; cases hc) hre] at h
      cases h
    | ok core =>
      rw [initNewron_none_ok env core hs hre] at h
      cases h
      simp [hs]
  | some s =>
    cases s with
    | importErr =>
      cases hre : rebindCore env.resolves with
      | error e =>
        rw [initNewron_rebind_err env e (by rw [hs]; intro hc; cases hc) hre] at h
        cases h
      | ok core =>
        rw [initNewron_importErr_ok env core hs hre] at h
        cases h
        simp [hs]
    | otherErr =>
      rw [initNewron_otherErr env hs] at h
      cases h

lemma initNewron_envFull : initNewron envFull = Except.ok stFull := rfl

lemma probeNames_nodup : (probeImports.map FlavorImport.name).Nodup := by decide

/-! ### Claim theorems -/

/-- C1 (counterexample): in the environment where only the `catboost`
dependency is missing, the `fastai` import would succeed (its dependencies
are present), yet initialization succeeds with an empty supported-flavor
list, so `fastai` is not in the list — the list does not equal the set of
integrations whose dependencies are present. -/
theorem C1_counterexample :
    envCatboostMissing.flavorImport "newron.fastai" = Outcome.ok ∧
    (initNewron envCatboostMissing).toOption.map ModuleState.flavors = some [] ∧
    (initNewron envCatboostMissing).toOption.map
      (fun st => decide ("fastai" ∈ st.flavors)) = some false := by
  decide

/-- C1 (amended): after a successful initialization, the supported-flavor
list is the full 21-name declaration-order list when every one of the 22
probe imports succeeds, and is empty otherwise — it is not a per-flavor
filter of the probe outcomes. -/
theorem C1_flavor_list_characterization (env : Env) (st : ModuleState)
    (h : initNewron env = Except.ok st) :
    st.flavors =
      if ∀ i ∈ probeImports, env.flavorImport i.module = Outcome.ok
      then modelFlavorsSupportedFull
      else [] := by
  have hc := initNewron_ok_flavors env st h
  by_cases hall : ∀ i ∈ probeImports, env.flavorImport i.module = Outcome.ok
  · rw [hc, if_pos ((runProbes_stopped_none_iff env).mpr hall), if_pos hall]
  · rw [hc, if_neg (fun hn => hall ((runProbes_stopped_none_iff env).mp hn)),
      if_neg hall]

/-- C1 (witness): instantiation at the environment where every probe
succeeds. -/
theorem C1_witness :
    stFull.flavors =
      if ∀ i ∈ probeImports, envFull.flavorImport i.module = Outcome.ok
      then modelFlavorsSupportedFull
      else [] :=
  C1_flavor_list_characterization envFull stFull initNewron_envFull

/-- C2 (counterexample): when the very first probe import (`catboost`)
raises `ImportError`, the probe block attempts no further import — the
attempted-module list is exactly `["newron.catboost"]` and in particular
the next probe, `newron.fastai`, is never attempted — so the detector
does not go on attempting every remaining integration. -/
theorem C2_counterexample :
    envCatboostMissing.flavorImport "newron.catboost" = Outcome.importError ∧
    (runProbes envCatboostMissing).attempted = ["newron.catboost"] ∧
    "newron.fastai" ∉ (runProbes envCatboostMissing).attempted := by
  decide

/-- C2 (amended): when a probe import raises `ImportError`, the remaining
probe imports are not attempted (the attempted list stops at the failing
module), but the failure never aborts initialization: the only error
initialization can still produce is an `AttributeError` from the later
core rebinding, never an `ImportError`. -/
theorem C2_import_error_stops_probing (env : Env)
    (pre : List FlavorImport) (i : FlavorImport) (rest : List FlavorImport)
    (hsplit : probeImports = pre ++ i :: rest)
    (hpre : ∀ j ∈ pre, env.flavorImport j.module = Outcome.ok)
    (hi : env.flavorImport i.module = Outcome.importError) :
    (runProbes env).attempted = pre.map FlavorImport.module ++ [i.module] ∧
    ∀ e, initNewron env = Except.error e → e = PyException.attributeError := by
  have hrun : runProbes env =
      { attempted := pre.map FlavorImport.module ++ [i.module]
      , bound := pre.map FlavorImport.name
      , stopped := some ProbeStop.importErr } := by
    rw [runProbes, hsplit]
    exact runProbesGo_stops_importError env.flavorImport pre i rest hpre hi
  refine ⟨by rw [hrun], ?_⟩
  intro e he
  have hs : (runProbes env).stopped = some ProbeStop.importErr := by rw [hrun]
  cases hre : rebindCore env.resolves with
  | ok core =>
    rw [initNewron_importErr_ok env core hs hre] at he
    cases he
  | error e2 =>
    rw [initNewron_rebind_err env e2 (by rw [hs]; intro hc; cases hc) hre] at he
    cases he
    exact rebindGo_error_attr env.resolves coreAssignments e hre

/-- C2 (witness): instantiation at the environment where only the
`catboost` dependency is missing, split before the first probe. -/
theorem C2_witness :
    (runProbes envCatboostMissing).attempted = ["newron.catboost"] ∧
    ∀ e, initNewron envCatboostMissing = Except.error e →
      e = PyException.attributeError :=
  C2_import_error_stops_probing envCatboostMissing []
    ⟨"newron.catboost", "catboost"⟩ probeImports.tail
    (by decide) (by decide) (by decide)

/-- C3: the export list `__all__` declares `search_experiments` (its
binding is commented out at line 127) and `MlflowClient` (renamed to
`NewronClient` at line 145), but even in the environment where
every import succeeds and every attribute resolves, neither name is an
attribute of the initialized package namespace — so not every name in
`__all__` resolves to a callable. -/
theorem C3_declared_export_unbound :
    "search_experiments" ∈ allBase ∧ "MlflowClient" ∈ allBase ∧
    (initNewron envFull).toOption.map
      (fun st => lookupAttr st "search_experiments") = some none ∧
    (initNewron envFull).toOption.map
      (fun st => lookupAttr st "MlflowClient") = some none ∧
    (initNewron envFull).toOption.map
      (fun st => decide ("search_experiments" ∈ st.allExports)) = some true ∧
    (initNewron envFull).toOption.map
      (fun st => decide ("MlflowClient" ∈ st.allExports)) = some true := by
  decide

/-- C4: after any successful initialization the supported-flavor list is
all-or-nothing: it is either empty or the full fixed 21-name list, and
whenever the probe block stopped (any probe import failed), the list is
left at its initial empty value, including flavors that had
already loaded successfully. -/
theorem C4_all_or_nothing (env : Env) (st : ModuleState)
    (h : initNewron env = Except.ok st) :
    (st.flavors = [] ∨ st.flavors = modelFlavorsSupportedFull) ∧
    modelFlavorsSupportedFull.length = 21 ∧
    ((runProbes env).stopped ≠ none → st.flavors = []) := by
  have hc := initNewron_ok_flavors env st h
  refine ⟨?_, by decide, ?_⟩
  · by_cases hs : (runProbes env).stopped = none
    · right; rw [hc, if_pos hs]
    · left; rw [hc, if_neg hs]
  · intro hs
    rw [hc, if_neg hs]

/-- C4 (witness): instantiation at the environment where every probe
succeeds. -/
theorem C4_witness :
    (stFull.flavors = [] ∨ stFull.flavors = modelFlavorsSupportedFull) ∧
    modelFlavorsSupportedFull.length = 21 ∧
    ((runProbes envFull).stopped ≠ none → stFull.flavors = []) :=
  C4_all_or_nothing envFull stFull initNewron_envFull

/-- C5: when every optional flavor dependency is missing (each probe
would raise `ImportError`) but the core namespaces are intact,
initialization still succeeds, the supported-flavor list is empty, and
every core tracking name of the rebinding section is bound on the public
namespace and resolves to a callable. -/
theorem C5_all_missing_core_intact (env : Env)
    (hall : ∀ i ∈ probeImports, env.flavorImport i.module = Outcome.importError)
    (hres : ∀ s, env.resolves s = true) :
    ∃ st, initNewron env = Except.ok st ∧ st.flavors = [] ∧
      st.coreNames = coreAssignments.map CoreBinding.publicName ∧
      ∀ b ∈ coreAssignments, lookupAttr st b.publicName = some PyAttr.callable := by
  have hi : env.flavorImport "newron.catboost" = Outcome.importError :=
    hall ⟨"newron.catboost", "catboost"⟩ (by decide)
  have hrun : runProbes env =
      { attempted := ["newron.catboost"]
      , bound := []
      , stopped := some ProbeStop.importErr } := by
    rw [runProbes,
      show probeImports =
        [] ++ (⟨"newron.catboost", "catboost"⟩ : FlavorImport) :: probeImports.tail
      from rfl]
    exact runProbesGo_stops_importError env.flavorImport [] _ _
      (fun j hj => absurd hj (List.not_mem_nil j)) hi
  have hs : (runProbes env).stopped = some ProbeStop.importErr := by rw [hrun]
  have hre : rebindCore env.resolves =
      Except.ok (coreAssignments.map CoreBinding.publicName) :=
    rebindGo_all_resolve env.resolves coreAssignments (fun b _ => hres b.source)
  refine ⟨_, initNewron_importErr_ok env _ hs hre, rfl, rfl, ?_⟩
  intro b hb
  have hmem : b.publicName ∈ coreAssignments.map CoreBinding.publicName :=
    List.mem_map_of_mem CoreBinding.publicName hb
  simp [lookupAttr, hmem]

/-- C5 (witness): instantiation at the environment with no flavor
dependency installed. -/
theorem C5_witness :
    ∃ st, initNewron envNoFlavors = Except.ok st ∧ st.flavors = [] ∧
      st.coreNames = coreAssignments.map CoreBinding.publicName ∧
      ∀ b ∈ coreAssignments, lookupAttr st b.publicName = some PyAttr.callable :=
  C5_all_missing_core_intact envNoFlavors (by decide) (fun s => rfl)

/-- C6: initialization succeeds exactly when the probe block was not
stopped by a non-`ImportError` exception and every core rebinding
attribute resolves; and any error initialization does raise is never an
`ImportError` — the flavor-probe `ImportError` is the one absorbed
failure, everything else (non-`ImportError` flavor failure, unresolvable
core attribute) propagates. -/
theorem C6_error_policy (env : Env) :
    ((∃ st, initNewron env = Except.ok st) ↔
      ((runProbes env).stopped ≠ some ProbeStop.otherErr ∧
        ∃ core, rebindCore env.resolves = Except.ok core)) ∧
    ∀ e, initNewron env = Except.error e → e ≠ PyException.importError := by
  constructor
  · constructor
    · rintro ⟨st, hst⟩
      cases hs : (runProbes env).stopped with
      | none =>
        cases hre : rebindCore env.resolves with
        | error e =>
          rw [initNewron_rebind_err env e (by rw [hs]; intro hc; cases hc) hre] at hst
          cases hst
        | ok core =>
          exact ⟨by decide, core, rfl⟩
      | some s =>
        cases s with
        | importErr =>
          cases hre : rebindCore env.resolves with
          | error e =>
            rw [initNewron_rebind_err env e (by rw [hs]; intro hc; cases hc) hre] at hst
            cases hst
          | ok core =>
            exact ⟨by decide, core, rfl⟩
        | otherErr =>
          rw [initNewron_otherErr env hs] at hst
          cases hst
    · rintro ⟨hns, core, hre⟩
      cases hs : (runProbes env).stopped with
      | none => exact ⟨_, initNewron_none_ok env core hs hre⟩
      | some s =>
        cases s with
        | importErr => exact ⟨_, initNewron_importErr_ok env core hs hre⟩
        | otherErr => exact absurd hs hns
  · intro e he
    cases hs : (runProbes env).stopped with
    | none =>
      cases hre : rebindCore env.resolves with
      | error e2 =>
        rw [initNewron_rebind_err env e2 (by rw [hs]; intro hc; cases hc) hre] at he
        cases he
        rw [rebindGo_error_attr env.resolves coreAssignments e hre]
        intro hc
        cases hc
      | ok core =>
        rw [initNewron_none_ok env core hs hre] at he
        cases he
    | some s =>
      cases s with
      | importErr =>
        cases hre : rebindCore env.resolves with
        | error e2 =>
          rw [initNewron_rebind_err env e2 (by rw [hs]; intro hc; cases hc) hre] at he
          cases he
          rw [rebindGo_error_attr env.resolves coreAssignments e hre]
          intro hc
          cases hc
        | ok core =>
          rw [initNewron_importErr_ok env core hs hre] at he
          cases he
      | otherErr =>
        rw [initNewron_otherErr env hs] at he
        cases he
        intro hc
        cases hc

/-- C6 (witness): in the full environment both success conditions hold,
so initialization succeeds. -/
theorem C6_witness : ∃ st, initNewron envFull = Except.ok st :=
  (C6_error_policy envFull).1.mpr
    ⟨by decide, coreAssignments.map CoreBinding.publicName, rfl⟩

/-- C7: when a probe import raises `ImportError` (the earlier probes
having succeeded), the failure is absorbed — initialization completes
without error (given an intact core), the failing flavor's name is not
bound on the namespace, and the flavor is absent from the supported list,
which is left empty. -/
theorem C7_import_error_silent (env : Env)
    (pre : List FlavorImport) (i : FlavorImport) (rest : List FlavorImport)
    (hsplit : probeImports = pre ++ i :: rest)
    (hpre : ∀ j ∈ pre, env.flavorImport j.module = Outcome.ok)
    (hi : env.flavorImport i.module = Outcome.importError)
    (hres : ∀ s, env.resolves s = true) :
    ∃ st, initNewron env = Except.ok st ∧
      i.name ∉ st.flavorNames ∧ st.flavors = [] ∧ i.name ∉ st.flavors := by
  have hrun : runProbes env =
      { attempted := pre.map FlavorImport.module ++ [i.module]
      , bound := pre.map FlavorImport.name
      , stopped := some ProbeStop.importErr } := by
    rw [runProbes, hsplit]
    exact runProbesGo_stops_importError env.flavorImport pre i rest hpre hi
  have hs : (runProbes env).stopped = some ProbeStop.importErr := by rw [hrun]
  have hre : rebindCore env.resolves =
      Except.ok (coreAssignments.map CoreBinding.publicName) :=
    rebindGo_all_resolve env.resolves coreAssignments (fun b _ => hres b.source)
  refine ⟨_, initNewron_importErr_ok env _ hs hre, ?_, rfl, ?_⟩
  · show i.name ∉ (runProbes env).bound
    rw [hrun]
    have hnd := probeNames_nodup
    rw [hsplit, List.map_append, List.map_cons] at hnd
    have hdisj := (List.nodup_append.mp hnd).2.2
    intro hmem
    exact hdisj hmem (List.mem_cons_self i.name (rest.map FlavorImport.name))
  · exact List.not_mem_nil i.name

/-- C7 (witness): instantiation at the environment where only `catboost`
is missing, with the split before the first probe. -/
theorem C7_witness :
    ∃ st, initNewron envCatboostMissing = Except.ok st ∧
      "catboost" ∉ st.flavorNames ∧ st.flavors = [] ∧ "catboost" ∉ st.flavors :=
  C7_import_error_silent envCatboostMissing []
    ⟨"newron.catboost", "catboost"⟩ probeImports.tail
    (by decide) (by decide) (by decide) (fun s => rfl)

/-- C8: the supported-flavor list produced by any successful
initialization has no duplicate entries. -/
theorem C8_flavors_nodup (env : Env) (st : ModuleState)
    (h : initNewron env = Except.ok st) : st.flavors.Nodup := by
  have hc := initNewron_ok_flavors env st h
  by_cases hs : (runProbes env).stopped = none
  · rw [hc, if_pos hs]
    decide
  · rw [hc, if_neg hs]
    exact List.nodup_nil

/-- C8 (witness): instantiation at the environment where every probe
succeeds, where the list is the full 21-name one. -/
theorem C8_witness : stFull.flavors.Nodup :=
  C8_flavors_nodup envFull stFull initNewron_envFull

/-- C9: re-importing the package in the same process returns the cached
module: after a first successful import, a second import yields the very
same module state — the same supported-flavor list and the same bindings
of public names. -/
theorem C9_reimport_idempotent (env : Env) (st : ModuleState)
    (h : importPackage none env = Except.ok st) :
    initNewron env = Except.ok st ∧
    importPackage (some st) env = Except.ok st ∧
    ∀ st2, importPackage (some st) env = Except.ok st2 →
      st2.flavors = st.flavors ∧ st2.flavorNames = st.flavorNames ∧
      st2.coreNames = st.coreNames ∧ st2.allExports = st.allExports := by
  refine ⟨h, rfl, ?_⟩
  intro st2 h2
  have h3 : (Except.ok st : Except PyException ModuleState) = Except.ok st2 := h2
  injection h3 with h4
  subst h4
  exact ⟨rfl, rfl, rfl, rfl⟩

/-- C9 (witness): instantiation at the full environment. -/
theorem C9_witness :
    initNewron envFull = Except.ok stFull ∧
    importPackage (some stFull) envFull = Except.ok stFull ∧
    ∀ st2, importPackage (some stFull) envFull = Except.ok st2 →
      st2.flavors = stFull.flavors ∧ st2.flavorNames = stFull.flavorNames ∧
      st2.coreNames = stFull.coreNames ∧ st2.allExports = stFull.allExports :=
  C9_reimport_idempotent envFull stFull initNewron_envFull

/-- C10: the `pyspark` module is probed by the `try` block (it is in the
probe list, and its absence alone empties the supported-flavor list), yet
the name pyspark appears neither in the 21-name flavor list nor anywhere in
`__all__`, even when every import succeeds. -/
theorem C10_pyspark_probed_never_exported :
    "mlflow.pyspark" ∈ probeImports.map FlavorImport.module ∧
    "pyspark" ∈ probeImports.map FlavorImport.name ∧
    "pyspark" ∉ modelFlavorsSupportedFull ∧
    "pyspark" ∉ allBase ∧
    (initNewron envPysparkMissing).toOption.map ModuleState.flavors = some [] ∧
    (initNewron envFull).toOption.map ModuleState.allExports =
      some (allBase ++ modelFlavorsSupportedFull) ∧
    "pyspark" ∉ allBase ++ modelFlavorsSupportedFull := by
  decide
